import Mathlib

/-!
Verification development for the c64emu repository: a shallow embedding of the
MOS 6510 CPU interpreter (`src/mos6510.rs`), the CIA timer (`src/cia1.rs`),
the VIC-II raster counters (`src/vic_ii.rs`) and the memory bus of the
`Machine` in `src/main.rs`, together with theorems about the claims of the
specification.

Conventions of the embedding:
 * machine integers are `Nat` (or `Int` for the signed `i8` quantities), with
   explicit `% 256` / `% 65536` where the Rust code wraps (`wrapping_add`,
   `as u8`, `as u16`);
 * Rust's plain `+` / `-` / `+=` / `-=` on `u8` / `u16` / `i8` is overflow
   checked (in builds with overflow checks it panics on wrap), so those
   operations are embedded as fallible, returning `Except Fault _` with
   `Fault.panic` on overflow;
 * the `Err(String)` results of `run_instruction` / `tick` are embedded as
   `Fault.err msg`;
 * memory (`ReadView`/`WriteView` in `memory.rs`) is a pure byte store
   `Nat → Nat`; all reads truncate to a byte, which models the `u8` result
   type of `read`.
-/

/-- A byte store over the 16-bit address space: `memory.rs`'s
`ReadView`/`WriteView` pair, as a pure function. -/
def Mem : Type := Nat → Nat

/-- `ReadView.read`: the stored value, truncated to a byte (`u8` result). -/
def Mem.read (m : Mem) (a : Nat) : Nat := m a % 256

/-- `WriteView.write`: pointwise update, storing a byte. -/
def Mem.write (m : Mem) (a v : Nat) : Mem := fun x => if x = a then v % 256 else m x

/-- A fault of the embedded interpreter: `panic` for a trapped checked
arithmetic overflow/underflow, `err` for the `Err(String)` value that
`run_instruction` returns on an unknown opcode. -/
inductive Fault where
  | panic : Fault
  | err : String → Fault
deriving DecidableEq

/-- Result type of the embedded fallible computations. -/
abbrev CpuM (α : Type) := Except Fault α

/-- Checked `u8` addition (Rust `+` on `u8`). -/
def chkAdd8 (a b : Nat) : CpuM Nat :=
  if a + b ≤ 0xFF then .ok (a + b) else .error .panic

/-- Checked `u8` subtraction (Rust `-` on `u8`). -/
def chkSub8 (a b : Nat) : CpuM Nat :=
  if b ≤ a then .ok (a - b) else .error .panic

/-- Checked `u16` addition (Rust `+` on `u16`). -/
def chkAdd16 (a b : Nat) : CpuM Nat :=
  if a + b ≤ 0xFFFF then .ok (a + b) else .error .panic

/-- Checked `i8` decrement (Rust `-= 1` on the `i8` field `wait_cycles`). -/
def chkDecI8 (w : Int) : CpuM Int :=
  if -128 ≤ w - 1 then .ok (w - 1) else .error .panic

/-- Rust `as i8` on a byte: reinterpret as a signed 8-bit value. -/
def toI8 (n : Nat) : Int :=
  if n % 256 < 128 then (n % 256 : Int) else (n % 256 : Int) - 256

/-- Rust `as u16` on an `i32`: truncate to the low 16 bits (two's complement). -/
def i32ToU16 (z : Int) : Nat := (z.emod 65536).toNat

/-- One uppercase hex digit. -/
def hexDigitChar (n : Nat) : Char :=
  if n < 10 then Char.ofNat (48 + n) else Char.ofNat (55 + n)

/-- `format!("{:02X}", n)` for a byte value `n < 256`. -/
def hex2 (n : Nat) : String :=
  String.mk [hexDigitChar (n / 16 % 16), hexDigitChar (n % 16)]

/-- `format!("{:04X}", n)` for a 16-bit value `n < 65536`. -/
def hex4 (n : Nat) : String :=
  String.mk [hexDigitChar (n / 4096 % 16), hexDigitChar (n / 256 % 16),
             hexDigitChar (n / 16 % 16), hexDigitChar (n % 16)]

/-- `mos6510.rs`: the CPU status register, one field per flag (the unused
bit 5 is commented out in the source and carries no state). -/
structure StatusRegister where
  negative_flag : Bool
  overflow_flag : Bool
  break_flag : Bool
  decimal_mode_flag : Bool
  interrupt_disable_flag : Bool
  zero_flag : Bool
  carry_flag : Bool
deriving DecidableEq

/-- `mos6510.rs`: the CPU register file `State`. -/
structure CpuState where
  program_counter : Nat
  stack_pointer : Nat
  status_register : StatusRegister
  accumulator : Nat
  index_x : Nat
  index_y : Nat
deriving DecidableEq

/-- `mos6510.rs`: the `Mos6510` struct (register file, cycle counter, latched
IRQ line). -/
structure Mos6510 where
  state : CpuState
  wait_cycles : Int
  irq : Bool
deriving DecidableEq

/-- `mos6510.rs`: the side-effect record returned by store instructions. -/
inductive Effect where
  | WriteMem : (addr : Nat) → (value : Nat) → Effect
deriving DecidableEq

/-- `same_page` in `mos6510.rs` (and `main.rs`): two addresses share a page
iff their high bytes match. -/
def same_page (a b : Nat) : Bool := a &&& 0xFF00 == b &&& 0xFF00

/-- `Mos6510::effective_stack_pointer`: `0x100 + SP`. -/
def Mos6510.effective_stack_pointer (cpu : Mos6510) : Nat :=
  0x100 + cpu.state.stack_pointer

/-- `Mos6510::push8`: write at `0x100+SP`, then `SP -= 1` (checked). -/
def Mos6510.push8 (cpu : Mos6510) (mem : Mem) (value : Nat) : CpuM (Mos6510 × Mem) := do
  let mem := mem.write cpu.effective_stack_pointer value
  let sp ← chkSub8 cpu.state.stack_pointer 1
  pure ({ cpu with state.stack_pointer := sp }, mem)

/-- `Mos6510::push16`: high byte first, low byte second, `SP -= 1` after each
write (checked). -/
def Mos6510.push16 (cpu : Mos6510) (mem : Mem) (value : Nat) : CpuM (Mos6510 × Mem) := do
  let mem := mem.write cpu.effective_stack_pointer ((value &&& 0xFF00) >>> 8)
  let sp ← chkSub8 cpu.state.stack_pointer 1
  let cpu := { cpu with state.stack_pointer := sp }
  let mem := mem.write cpu.effective_stack_pointer (value &&& 0x00FF)
  let sp ← chkSub8 cpu.state.stack_pointer 1
  pure ({ cpu with state.stack_pointer := sp }, mem)

/-- `Mos6510::pop8`: `SP += 1` (checked), then read at `0x100+SP`. -/
def Mos6510.pop8 (cpu : Mos6510) (mem : Mem) : CpuM (Mos6510 × Nat) := do
  let sp ← chkAdd8 cpu.state.stack_pointer 1
  let cpu := { cpu with state.stack_pointer := sp }
  pure (cpu, mem.read cpu.effective_stack_pointer)

/-- `Mos6510::pop16`: low byte first, high byte second, `SP += 1` (checked)
before each read. -/
def Mos6510.pop16 (cpu : Mos6510) (mem : Mem) : CpuM (Mos6510 × Nat) := do
  let sp ← chkAdd8 cpu.state.stack_pointer 1
  let cpu := { cpu with state.stack_pointer := sp }
  let lo := mem.read cpu.effective_stack_pointer
  let sp ← chkAdd8 cpu.state.stack_pointer 1
  let cpu := { cpu with state.stack_pointer := sp }
  let hi := mem.read cpu.effective_stack_pointer
  pure (cpu, (hi <<< 8) + lo)

/-- `Mos6510::read_absolute_addr`: little-endian operand word at `PC+1`. -/
def Mos6510.read_absolute_addr (cpu : Mos6510) (mem : Mem) : CpuM Nat := do
  let a1 ← chkAdd16 cpu.state.program_counter 1
  let a2 ← chkAdd16 cpu.state.program_counter 2
  pure (mem.read a1 + (mem.read a2 <<< 8))

/-- `Mos6510::read_relative_addr`: `PC` plus the sign-extended operand byte,
computed in `i32` and truncated to `u16`. -/
def Mos6510.read_relative_addr (cpu : Mos6510) (mem : Mem) : CpuM Nat := do
  let a1 ← chkAdd16 cpu.state.program_counter 1
  pure (i32ToU16 ((cpu.state.program_counter : Int) + toI8 (mem.read a1)))

/-- `Mos6510::read_immediate`: the byte at `PC+1`. -/
def Mos6510.read_immediate (cpu : Mos6510) (mem : Mem) : CpuM Nat := do
  let a1 ← chkAdd16 cpu.state.program_counter 1
  pure (mem.read a1)

/-- `Mos6510::read_zeropage_addr`: the operand byte as a 16-bit address. -/
def Mos6510.read_zeropage_addr (cpu : Mos6510) (mem : Mem) : CpuM Nat :=
  cpu.read_immediate mem

/-- `Mos6510::read_indirect_y_indexed_addr`: fetch the zero-page vector, add
`Y` (checked `u16` addition); returns `(vector_addr, effective_addr)`. -/
def Mos6510.read_indirect_y_indexed_addr (cpu : Mos6510) (mem : Mem) : CpuM (Nat × Nat) := do
  let vector_addr ← cpu.read_zeropage_addr mem
  let vector_lo := mem.read vector_addr
  let va1 ← chkAdd16 vector_addr 1
  let vector_hi := mem.read va1
  let vector := (vector_hi <<< 8) + vector_lo
  let addr ← chkAdd16 vector cpu.state.index_y
  pure (vector_addr, addr)

/-- `Mos6510::read_indexed_zeropage_x`: operand plus `X` with `u8` wraparound;
returns `(base_addr, effective_addr)`. -/
def Mos6510.read_indexed_zeropage_x (cpu : Mos6510) (mem : Mem) : CpuM (Nat × Nat) := do
  let base_addr ← cpu.read_immediate mem
  pure (base_addr, (base_addr + cpu.state.index_x) % 256)

/-- `Mos6510::set_negative_flag`: `N := bit 7 of value`. -/
def Mos6510.set_negative_flag (cpu : Mos6510) (value : Nat) : Mos6510 :=
  { cpu with state.status_register.negative_flag := value &&& (1 <<< 7) != 0 }

/-- `Mos6510::set_zero_flag`: `Z := value == 0`. -/
def Mos6510.set_zero_flag (cpu : Mos6510) (value : Nat) : Mos6510 :=
  { cpu with state.status_register.zero_flag := value == 0 }

/-- `Mos6510::compare`: `C := op1 ≥ op2`, `N`/`Z` from the wrapping
difference. -/
def Mos6510.compare (cpu : Mos6510) (operand1 operand2 : Nat) : Mos6510 :=
  let cpu := { cpu with state.status_register.carry_flag := operand2 ≤ operand1 }
  let value := (256 + operand1 - operand2) % 256
  (cpu.set_negative_flag value).set_zero_flag value

/-- `Mos6510::add_with_carry` (binary-mode ADC): 9-bit sum, `C` from bit 8,
`V` exactly as in the source — set only when both operands are non-negative
(as `i8`) and the result is negative. -/
def Mos6510.add_with_carry (cpu : Mos6510) (operand : Nat) : Mos6510 :=
  let accumulator := cpu.state.accumulator
  let added := accumulator + operand +
    (if cpu.state.status_register.carry_flag then 1 else 0)
  let value := added % 256
  let cpu := { cpu with state.accumulator := value }
  let cpu := { cpu with state.status_register.carry_flag := added &&& 0x0100 != 0 }
  let cpu := (cpu.set_negative_flag value).set_zero_flag value
  let v := decide (0 ≤ toI8 accumulator) && decide (0 ≤ toI8 operand) && decide (toI8 value < 0)
  { cpu with state.status_register.overflow_flag := v }

/-- `Mos6510::subtract_with_carry`: signed 9-bit difference, truncated to a
byte; `C := A ≥ M` (unsigned, before update); `V` from signed range. -/
def Mos6510.subtract_with_carry (cpu : Mos6510) (operand : Nat) : Mos6510 :=
  let accumulator := cpu.state.accumulator
  let subtracted : Int := toI8 accumulator - toI8 operand -
    (if cpu.state.status_register.carry_flag then 0 else 1)
  let value := (subtracted.emod 256).toNat
  let cpu := { cpu with state.accumulator := value }
  let cpu := { cpu with state.status_register.carry_flag := operand ≤ accumulator }
  let cpu := (cpu.set_negative_flag value).set_zero_flag value
  let v := decide (subtracted < -128) || decide (127 < subtracted)
  { cpu with state.status_register.overflow_flag := v }

/-- `Mos6510::shift_left_memory` (ASL on memory). -/
def Mos6510.shift_left_memory (cpu : Mos6510) (mem : Mem) (addr : Nat) :
    Mos6510 × Mem × Effect :=
  let operand := mem.read addr
  let shifted := operand <<< 1
  let value := shifted % 256
  let mem := mem.write addr value
  let cpu := { cpu with state.status_register.carry_flag := shifted &&& 0x0100 != 0 }
  let cpu := (cpu.set_negative_flag value).set_zero_flag value
  (cpu, mem, .WriteMem addr value)

/-- `Mos6510::rotate_right_memory` (ROR on memory). -/
def Mos6510.rotate_right_memory (cpu : Mos6510) (mem : Mem) (addr : Nat) :
    Mos6510 × Mem × Effect :=
  let operand := mem.read addr
  let value := ((if cpu.state.status_register.carry_flag then 0x100 else 0) ||| operand) >>> 1
  let mem := mem.write addr value
  let cpu := { cpu with state.status_register.carry_flag := operand &&& 1 != 0 }
  let cpu := (cpu.set_negative_flag value).set_zero_flag value
  (cpu, mem, .WriteMem addr value)

/-- `Mos6510::decrement_memory` (DEC, with `wrapping_sub`). -/
def Mos6510.decrement_memory (cpu : Mos6510) (mem : Mem) (addr : Nat) :
    Mos6510 × Mem × Effect :=
  let operand := mem.read addr
  let value := (256 + operand - 1) % 256
  let mem := mem.write addr value
  let cpu := (cpu.set_negative_flag value).set_zero_flag value
  (cpu, mem, .WriteMem addr value)

/-- `Mos6510::or_with_accumulator` (ORA core). -/
def Mos6510.or_with_accumulator (cpu : Mos6510) (operand : Nat) : Mos6510 :=
  let value := cpu.state.accumulator ||| operand
  let cpu := { cpu with state.accumulator := value }
  (cpu.set_negative_flag value).set_zero_flag value

/-- `Mos6510::status_register_value`: pack the flags into the canonical P
byte (`C`=bit0, `Z`=1, `I`=2, `D`=3, `B`=4, `V`=6, `N`=7; bit 5 is never
set by this implementation, and `B` is packed exactly as stored). -/
def Mos6510.status_register_value (cpu : Mos6510) : Nat :=
  (if cpu.state.status_register.carry_flag then 0x01 else 0) |||
  (if cpu.state.status_register.zero_flag then 0x02 else 0) |||
  (if cpu.state.status_register.interrupt_disable_flag then 0x04 else 0) |||
  (if cpu.state.status_register.decimal_mode_flag then 0x08 else 0) |||
  (if cpu.state.status_register.break_flag then 0x10 else 0) |||
  (if cpu.state.status_register.overflow_flag then 0x40 else 0) |||
  (if cpu.state.status_register.negative_flag then 0x80 else 0)

/-- `Mos6510::set_status_register`: unpack a P byte into the flags. -/
def Mos6510.set_status_register (cpu : Mos6510) (value : Nat) : Mos6510 :=
  { cpu with state.status_register :=
      { carry_flag := value &&& 0x01 != 0
        zero_flag := value &&& 0x02 != 0
        interrupt_disable_flag := value &&& 0x04 != 0
        decimal_mode_flag := value &&& 0x08 != 0
        break_flag := value &&& 0x10 != 0
        overflow_flag := value &&& 0x40 != 0
        negative_flag := value &&& 0x80 != 0 } }

/-- The dispatch `match` of `Mos6510::run_instruction`, with the fetched
opcode byte as a parameter. Every arm of the source `match` is reproduced
(in source order, as a chain of equality tests on the opcode); the final
branch is the source's default arm, the fatal decode error
`Err(format!("UNKNOWN OPCODE: 0x{:02X}", opcode))`. Returns the updated CPU
and memory, the disassembled instruction text, and the optional `WriteMem`
side-effect record. -/
def Mos6510.dispatch (cpu : Mos6510) (mem : Mem) (opcode : Nat) :
    CpuM (Mos6510 × Mem × String × Option Effect) :=
  if opcode = 0x05 then do
    let addr ← cpu.read_zeropage_addr mem
    let operand := mem.read addr
    let cpu := cpu.or_with_accumulator operand
    let pc ← chkAdd16 cpu.state.program_counter 2
    let cpu := { cpu with state.program_counter := pc, wait_cycles := 3 }
    pure (cpu, mem, "ORA $" ++ hex2 addr, none)
  else if opcode = 0x06 then do
    let addr ← cpu.read_zeropage_addr mem
    let (cpu, mem, effect) := cpu.shift_left_memory mem addr
    let pc ← chkAdd16 cpu.state.program_counter 2
    let cpu := { cpu with state.program_counter := pc, wait_cycles := 5 }
    pure (cpu, mem, "ASL $" ++ hex2 addr, some effect)
  else if opcode = 0x08 then do
    let value := cpu.status_register_value
    let (cpu, mem) ← cpu.push8 mem value
    let pc ← chkAdd16 cpu.state.program_counter 1
    let cpu := { cpu with state.program_counter := pc, wait_cycles := 3 }
    pure (cpu, mem, "PHP", none)
  else if opcode = 0x09 then do
    let operand ← cpu.read_immediate mem
    let cpu := cpu.or_with_accumulator operand
    let pc ← chkAdd16 cpu.state.program_counter 2
    let cpu := { cpu with state.program_counter := pc, wait_cycles := 2 }
    pure (cpu, mem, "ORA #$" ++ hex2 operand, none)
  else if opcode = 0x0A then do
    let operand := cpu.state.accumulator
    let value := (operand <<< 1) % 256
    let cpu := { cpu with state.status_register.carry_flag := operand &&& 0x80 != 0 }
    let cpu := (cpu.set_negative_flag value).set_zero_flag value
    let pc ← chkAdd16 cpu.state.program_counter 1
    let cpu := { cpu with state.program_counter := pc, wait_cycles := 2 }
    pure (cpu, mem, "ASL", none)
  else if opcode = 0x0D then do
    let addr ← cpu.read_absolute_addr mem
    let operand := mem.read addr
    let cpu := cpu.or_with_accumulator operand
    let pc ← chkAdd16 cpu.state.program_counter 3
    let cpu := { cpu with state.program_counter := pc, wait_cycles := 4 }
    pure (cpu, mem, "ORA $" ++ hex4 addr, none)
  else if opcode = 0x10 then do
    let ra ← cpu.read_relative_addr mem
    let addr ← chkAdd16 ra 2
    if cpu.state.status_register.negative_flag = false then
      let cpu := { cpu with state.program_counter := addr }
      let w : Int := if same_page cpu.state.program_counter addr then 3 else 4
      let cpu := { cpu with wait_cycles := w }
      pure (cpu, mem, "BPL $" ++ hex4 addr, none)
    else do
      let pc ← chkAdd16 cpu.state.program_counter 2
      let cpu := { cpu with state.program_counter := pc, wait_cycles := 2 }
      pure (cpu, mem, "BPL $" ++ hex4 addr, none)
  else if opcode = 0x16 then do
    let (base_addr, addr) ← cpu.read_indexed_zeropage_x mem
    let (cpu, mem, effect) := cpu.shift_left_memory mem addr
    let pc ← chkAdd16 cpu.state.program_counter 2
    let cpu := { cpu with state.program_counter := pc, wait_cycles := 6 }
    pure (cpu, mem, "ASL $" ++ hex2 base_addr ++ ",X", some effect)
  else if opcode = 0x18 then do
    let cpu := { cpu with state.status_register.carry_flag := false }
    let pc ← chkAdd16 cpu.state.program_counter 1
    let cpu := { cpu with state.program_counter := pc, wait_cycles := 2 }
    pure (cpu, mem, "CLC", none)
  else if opcode = 0x20 then do
    let pc := cpu.state.program_counter
    let ret ← chkAdd16 pc 2
    let (cpu, mem) ← cpu.push16 mem ret
    let addr ← cpu.read_absolute_addr mem
    let cpu := { cpu with state.program_counter := addr, wait_cycles := 6 }
    pure (cpu, mem, "JSR $" ++ hex4 addr, none)
  else if opcode = 0x24 then do
    let addr ← cpu.read_zeropage_addr mem
    let operand := mem.read addr
    let value := cpu.state.accumulator &&& operand
    let cpu := cpu.set_zero_flag value
    let cpu := { cpu with state.status_register.negative_flag := operand &&& 0x80 != 0 }
    let cpu := { cpu with state.status_register.overflow_flag := operand &&& 0x40 != 0 }
    let pc ← chkAdd16 cpu.state.program_counter 2
    let cpu := { cpu with state.program_counter := pc, wait_cycles := 3 }
    pure (cpu, mem, "BIT $" ++ hex2 addr, none)
  else if opcode = 0x28 then do
    let (cpu, value) ← cpu.pop8 mem
    let cpu := cpu.set_status_register value
    let pc ← chkAdd16 cpu.state.program_counter 1
    let cpu := { cpu with state.program_counter := pc, wait_cycles := 4 }
    pure (cpu, mem, "PLP", none)
  else if opcode = 0x29 then do
    let operand ← cpu.read_immediate mem
    let value := cpu.state.accumulator &&& operand
    let cpu := { cpu with state.accumulator := value }
    let cpu := (cpu.set_negative_flag value).set_zero_flag value
    let pc ← chkAdd16 cpu.state.program_counter 2
    let cpu := { cpu with state.program_counter := pc, wait_cycles := 2 }
    pure (cpu, mem, "AND #$" ++ hex2 operand, none)
  else if opcode = 0x2A then do
    let shifted := cpu.state.accumulator <<< 1
    let value := shifted % 256 ||| (if cpu.state.status_register.carry_flag then 1 else 0)
    let cpu := { cpu with state.status_register.carry_flag := shifted &&& 0x0100 != 0 }
    let cpu := { cpu with state.accumulator := value }
    let cpu := (cpu.set_negative_flag value).set_zero_flag value
    let pc ← chkAdd16 cpu.state.program_counter 1
    let cpu := { cpu with state.program_counter := pc, wait_cycles := 2 }
    pure (cpu, mem, "ROL A", none)
  else if opcode = 0x2C then do
    let addr ← cpu.read_absolute_addr mem
    let operand := mem.read addr
    let value := cpu.state.accumulator &&& operand
    let cpu := cpu.set_zero_flag value
    let cpu := { cpu with state.status_register.negative_flag := operand &&& 0x80 != 0 }
    let cpu := { cpu with state.status_register.overflow_flag := operand &&& 0x40 != 0 }
    let pc ← chkAdd16 cpu.state.program_counter 3
    let cpu := { cpu with state.program_counter := pc, wait_cycles := 4 }
    pure (cpu, mem, "BIT $" ++ hex4 addr, none)
  else if opcode = 0x30 then do
    let ra ← cpu.read_relative_addr mem
    let addr ← chkAdd16 ra 2
    if cpu.state.status_register.negative_flag then
      let cpu := { cpu with state.program_counter := addr }
      let w : Int := if same_page cpu.state.program_counter addr then 3 else 4
      let cpu := { cpu with wait_cycles := w }
      pure (cpu, mem, "BMI $" ++ hex4 addr, none)
    else do
      let pc ← chkAdd16 cpu.state.program_counter 2
      let cpu := { cpu with state.program_counter := pc, wait_cycles := 2 }
      pure (cpu, mem, "BMI $" ++ hex4 addr, none)
  else if opcode = 0x38 then do
    let cpu := { cpu with state.status_register.carry_flag := true }
    let pc ← chkAdd16 cpu.state.program_counter 1
    let cpu := { cpu with state.program_counter := pc, wait_cycles := 2 }
    pure (cpu, mem, "SEC", none)
  else if opcode = 0x40 then do
    let (cpu, sr) ← cpu.pop8 mem
    let (cpu, pc) ← cpu.pop16 mem
    let cpu := cpu.set_status_register sr
    let cpu := { cpu with state.program_counter := pc }
    pure (cpu, mem, "RTI", none)
  else if opcode = 0x45 then do
    let addr ← cpu.read_zeropage_addr mem
    let operand := mem.read addr
    let value := cpu.state.accumulator ^^^ operand
    let cpu := { cpu with state.accumulator := value }
    let cpu := (cpu.set_negative_flag value).set_zero_flag value
    let pc ← chkAdd16 cpu.state.program_counter 2
    let cpu := { cpu with state.program_counter := pc, wait_cycles := 2 }
    pure (cpu, mem, "EOR $" ++ hex2 addr, none)
  else if opcode = 0x46 then do
    let addr ← cpu.read_zeropage_addr mem
    let operand := mem.read addr
    let value := operand >>> 1
    let mem := mem.write addr value
    let cpu := (cpu.set_negative_flag value).set_zero_flag value
    let cpu := { cpu with state.status_register.carry_flag := operand &&& 1 != 0 }
    let pc ← chkAdd16 cpu.state.program_counter 2
    let cpu := { cpu with state.program_counter := pc, wait_cycles := 5 }
    pure (cpu, mem, "LSR $" ++ hex2 addr, some (.WriteMem addr value))
  else if opcode = 0x48 then do
    let value := cpu.state.accumulator
    let (cpu, mem) ← cpu.push8 mem value
    let pc ← chkAdd16 cpu.state.program_counter 1
    let cpu := { cpu with state.program_counter := pc, wait_cycles := 3 }
    pure (cpu, mem, "PHA", none)
  else if opcode = 0x49 then do
    let operand ← cpu.read_immediate mem
    let value := cpu.state.accumulator ^^^ operand
    let cpu := { cpu with state.accumulator := value }
    let cpu := (cpu.set_negative_flag value).set_zero_flag value
    let pc ← chkAdd16 cpu.state.program_counter 2
    let cpu := { cpu with state.program_counter := pc, wait_cycles := 2 }
    pure (cpu, mem, "EOR #$" ++ hex2 operand, none)
  else if opcode = 0x4A then do
    let operand := cpu.state.accumulator
    let value := operand >>> 1
    let cpu := { cpu with state.status_register.carry_flag := operand &&& 1 != 0 }
    let cpu := (cpu.set_negative_flag value).set_zero_flag value
    let pc ← chkAdd16 cpu.state.program_counter 1
    let cpu := { cpu with state.program_counter := pc, wait_cycles := 2 }
    pure (cpu, mem, "LSR", none)
  else if opcode = 0x4C then do
    let addr ← cpu.read_absolute_addr mem
    let cpu := { cpu with state.program_counter := addr, wait_cycles := 3 }
    pure (cpu, mem, "JMP $" ++ hex4 addr, none)
  else if opcode = 0x56 then do
    let (base_addr, addr) ← cpu.read_indexed_zeropage_x mem
    let operand := mem.read addr
    let value := operand >>> 1
    let mem := mem.write addr value
    let cpu := (cpu.set_negative_flag value).set_zero_flag value
    let cpu := { cpu with state.status_register.carry_flag := operand &&& 1 != 0 }
    let pc ← chkAdd16 cpu.state.program_counter 2
    let cpu := { cpu with state.program_counter := pc, wait_cycles := 5 }
    pure (cpu, mem, "LSR $" ++ hex2 base_addr ++ ",X", some (.WriteMem addr value))
  else if opcode = 0x58 then do
    let cpu := { cpu with state.status_register.interrupt_disable_flag := false }
    let pc ← chkAdd16 cpu.state.program_counter 1
    let cpu := { cpu with state.program_counter := pc, wait_cycles := 2 }
    pure (cpu, mem, "CLI", none)
  else if opcode = 0x60 then do
    let (cpu, pc) ← cpu.pop16 mem
    let pc1 ← chkAdd16 pc 1
    let cpu := { cpu with state.program_counter := pc1, wait_cycles := 6 }
    pure (cpu, mem, "RTS", none)
  else if opcode = 0x65 then do
    let addr ← cpu.read_zeropage_addr mem
    let operand := mem.read addr
    let cpu := cpu.add_with_carry operand
    let pc ← chkAdd16 cpu.state.program_counter 2
    let cpu := { cpu with state.program_counter := pc, wait_cycles := 2 }
    pure (cpu, mem, "ADC $" ++ hex2 addr, none)
  else if opcode = 0x66 then do
    let addr ← cpu.read_zeropage_addr mem
    let (cpu, mem, effect) := cpu.rotate_right_memory mem addr
    let pc ← chkAdd16 cpu.state.program_counter 2
    let cpu := { cpu with state.program_counter := pc, wait_cycles := 5 }
    pure (cpu, mem, "ROR $" ++ hex2 addr, some effect)
  else if opcode = 0x68 then do
    let (cpu, value) ← cpu.pop8 mem
    let cpu := { cpu with state.accumulator := value }
    let pc ← chkAdd16 cpu.state.program_counter 1
    let cpu := { cpu with state.program_counter := pc, wait_cycles := 4 }
    pure (cpu, mem, "PLA", none)
  else if opcode = 0x69 then do
    let operand ← cpu.read_immediate mem
    let cpu := cpu.add_with_carry operand
    let pc ← chkAdd16 cpu.state.program_counter 2
    let cpu := { cpu with state.program_counter := pc, wait_cycles := 2 }
    pure (cpu, mem, "ADC #$" ++ hex2 operand, none)
  else if opcode = 0x6A then do
    let operand := cpu.state.accumulator
    let value := ((if cpu.state.status_register.carry_flag then 0x100 else 0) ||| operand) >>> 1
    let cpu := { cpu with state.accumulator := value }
    let cpu := { cpu with state.status_register.carry_flag := operand &&& 1 != 0 }
    let cpu := (cpu.set_negative_flag value).set_zero_flag value
    let pc ← chkAdd16 cpu.state.program_counter 1
    let cpu := { cpu with state.program_counter := pc, wait_cycles := 2 }
    pure (cpu, mem, "ROR A", none)
  else if opcode = 0x6C then do
    let vector_addr ← cpu.read_absolute_addr mem
    let vector_lo := mem.read vector_addr
    let va1 ← chkAdd16 vector_addr 1
    let vector_hi := mem.read va1
    let addr := (vector_hi <<< 8) + vector_lo
    let cpu := { cpu with state.program_counter := addr, wait_cycles := 5 }
    pure (cpu, mem, "JMP (" ++ hex4 vector_addr ++ ")", none)
  else if opcode = 0x70 then do
    let ra ← cpu.read_relative_addr mem
    let addr ← chkAdd16 ra 2
    if cpu.state.status_register.overflow_flag then
      let cpu := { cpu with state.program_counter := addr }
      let w : Int := if same_page cpu.state.program_counter addr then 3 else 4
      let cpu := { cpu with wait_cycles := w }
      pure (cpu, mem, "BVS $" ++ hex4 addr, none)
    else do
      let pc ← chkAdd16 cpu.state.program_counter 2
      let cpu := { cpu with state.program_counter := pc, wait_cycles := 2 }
      pure (cpu, mem, "BVS $" ++ hex4 addr, none)
  else if opcode = 0x76 then do
    let (base_addr, addr) ← cpu.read_indexed_zeropage_x mem
    let (cpu, mem, effect) := cpu.rotate_right_memory mem addr
    let pc ← chkAdd16 cpu.state.program_counter 2
    let cpu := { cpu with state.program_counter := pc, wait_cycles := 6 }
    pure (cpu, mem, "ROR $" ++ hex2 base_addr ++ ",X", some effect)
  else if opcode = 0x78 then do
    let cpu := { cpu with state.status_register.interrupt_disable_flag := true }
    let pc ← chkAdd16 cpu.state.program_counter 1
    let cpu := { cpu with state.program_counter := pc, wait_cycles := 2 }
    pure (cpu, mem, "SEI", none)
  else if opcode = 0x79 then do
    let abs_addr ← cpu.read_absolute_addr mem
    let addr ← chkAdd16 abs_addr cpu.state.index_y
    let operand := mem.read addr
    let cpu := cpu.add_with_carry operand
    let pc ← chkAdd16 cpu.state.program_counter 3
    let cpu := { cpu with state.program_counter := pc }
    let w : Int := if same_page cpu.state.program_counter addr then 4 else 5
    let cpu := { cpu with wait_cycles := w }
    pure (cpu, mem, "ADC $" ++ hex4 abs_addr ++ ",Y", none)
  else if opcode = 0x8D then do
    let addr ← cpu.read_absolute_addr mem
    let value := cpu.state.accumulator
    let mem := mem.write addr value
    let pc ← chkAdd16 cpu.state.program_counter 3
    let cpu := { cpu with state.program_counter := pc, wait_cycles := 4 }
    pure (cpu, mem, "STA $" ++ hex4 addr, some (.WriteMem addr value))
  else if opcode = 0x85 then do
    let addr ← cpu.read_zeropage_addr mem
    let value := cpu.state.accumulator
    let mem := mem.write addr value
    let pc ← chkAdd16 cpu.state.program_counter 2
    let cpu := { cpu with state.program_counter := pc, wait_cycles := 3 }
    pure (cpu, mem, "STA $" ++ hex2 addr, some (.WriteMem addr value))
  else if opcode = 0x84 then do
    let addr ← cpu.read_zeropage_addr mem
    let value := cpu.state.index_y
    let mem := mem.write addr value
    let pc ← chkAdd16 cpu.state.program_counter 2
    let cpu := { cpu with state.program_counter := pc, wait_cycles := 3 }
    pure (cpu, mem, "STY $" ++ hex2 addr, some (.WriteMem addr value))
  else if opcode = 0x86 then do
    let addr ← cpu.read_zeropage_addr mem
    let value := cpu.state.index_x
    let mem := mem.write addr value
    let pc ← chkAdd16 cpu.state.program_counter 2
    let cpu := { cpu with state.program_counter := pc, wait_cycles := 3 }
    pure (cpu, mem, "STX $" ++ hex2 addr, some (.WriteMem addr value))
  else if opcode = 0x88 then do
    let value := (256 + cpu.state.index_y - 1) % 256
    let cpu := { cpu with state.index_y := value }
    let cpu := (cpu.set_negative_flag value).set_zero_flag value
    let pc ← chkAdd16 cpu.state.program_counter 1
    let cpu := { cpu with state.program_counter := pc, wait_cycles := 2 }
    pure (cpu, mem, "DEY", none)
  else if opcode = 0x8A then do
    let value := cpu.state.index_x
    let cpu := { cpu with state.accumulator := value }
    let cpu := (cpu.set_negative_flag value).set_zero_flag value
    let pc ← chkAdd16 cpu.state.program_counter 1
    let cpu := { cpu with state.program_counter := pc, wait_cycles := 2 }
    pure (cpu, mem, "TXA", none)
  else if opcode = 0x8C then do
    let addr ← cpu.read_absolute_addr mem
    let value := cpu.state.index_y
    let mem := mem.write addr value
    let pc ← chkAdd16 cpu.state.program_counter 3
    let cpu := { cpu with state.program_counter := pc, wait_cycles := 4 }
    pure (cpu, mem, "STY $" ++ hex4 addr, some (.WriteMem addr value))
  else if opcode = 0x8E then do
    let addr ← cpu.read_absolute_addr mem
    let value := cpu.state.index_x
    let mem := mem.write addr value
    let pc ← chkAdd16 cpu.state.program_counter 3
    let cpu := { cpu with state.program_counter := pc, wait_cycles := 4 }
    pure (cpu, mem, "STX $" ++ hex4 addr, some (.WriteMem addr value))
  else if opcode = 0x90 then do
    let ra ← cpu.read_relative_addr mem
    let addr ← chkAdd16 ra 2
    if cpu.state.status_register.carry_flag = false then
      let cpu := { cpu with state.program_counter := addr }
      let w : Int := if same_page cpu.state.program_counter addr then 3 else 4
      let cpu := { cpu with wait_cycles := w }
      pure (cpu, mem, "BCC $" ++ hex4 addr, none)
    else do
      let pc ← chkAdd16 cpu.state.program_counter 2
      let cpu := { cpu with state.program_counter := pc, wait_cycles := 2 }
      pure (cpu, mem, "BCC $" ++ hex4 addr, none)
  else if opcode = 0x91 then do
    let (vector_addr, addr) ← cpu.read_indirect_y_indexed_addr mem
    let value := cpu.state.accumulator
    let mem := mem.write addr value
    let pc ← chkAdd16 cpu.state.program_counter 2
    let cpu := { cpu with state.program_counter := pc, wait_cycles := 6 }
    pure (cpu, mem, "STA ($" ++ hex2 vector_addr ++ "),Y", some (.WriteMem addr value))
  else if opcode = 0x94 then do
    let (base_addr, addr) ← cpu.read_indexed_zeropage_x mem
    let value := cpu.state.index_y
    let mem := mem.write addr value
    let pc ← chkAdd16 cpu.state.program_counter 2
    let cpu := { cpu with state.program_counter := pc, wait_cycles := 4 }
    pure (cpu, mem, "STY $" ++ hex2 base_addr ++ ",X", some (.WriteMem addr value))
  else if opcode = 0x95 then do
    let (base_addr, addr) ← cpu.read_indexed_zeropage_x mem
    let value := cpu.state.accumulator
    let mem := mem.write addr value
    let pc ← chkAdd16 cpu.state.program_counter 2
    let cpu := { cpu with state.program_counter := pc, wait_cycles := 4 }
    pure (cpu, mem, "STA $" ++ hex2 base_addr ++ ",X", some (.WriteMem addr value))
  else if opcode = 0x98 then do
    let value := cpu.state.index_y
    let cpu := { cpu with state.accumulator := value }
    let cpu := (cpu.set_negative_flag value).set_zero_flag value
    let pc ← chkAdd16 cpu.state.program_counter 1
    let cpu := { cpu with state.program_counter := pc, wait_cycles := 2 }
    pure (cpu, mem, "TYA", none)
  else if opcode = 0x99 then do
    let abs_addr ← cpu.read_absolute_addr mem
    let addr ← chkAdd16 abs_addr cpu.state.index_y
    let value := cpu.state.accumulator
    let mem := mem.write addr value
    let pc ← chkAdd16 cpu.state.program_counter 3
    let cpu := { cpu with state.program_counter := pc, wait_cycles := 5 }
    pure (cpu, mem, "STA $" ++ hex4 abs_addr ++ ",Y", some (.WriteMem addr value))
  else if opcode = 0x9A then do
    let cpu := { cpu with state.stack_pointer := cpu.state.index_x }
    let pc ← chkAdd16 cpu.state.program_counter 1
    let cpu := { cpu with state.program_counter := pc, wait_cycles := 2 }
    pure (cpu, mem, "TXS", none)
  else if opcode = 0x9D then do
    let abs_addr ← cpu.read_absolute_addr mem
    let addr ← chkAdd16 abs_addr cpu.state.index_x
    let value := cpu.state.accumulator
    let mem := mem.write addr value
    let pc ← chkAdd16 cpu.state.program_counter 3
    let cpu := { cpu with state.program_counter := pc, wait_cycles := 5 }
    pure (cpu, mem, "STA $" ++ hex4 addr ++ ",X", some (.WriteMem addr value))
  else if opcode = 0xA5 then do
    let addr ← cpu.read_zeropage_addr mem
    let value := mem.read addr
    let cpu := { cpu with state.accumulator := value }
    let cpu := (cpu.set_negative_flag value).set_zero_flag value
    let pc ← chkAdd16 cpu.state.program_counter 2
    let cpu := { cpu with state.program_counter := pc, wait_cycles := 3 }
    pure (cpu, mem, "LDA $" ++ hex2 addr, none)
  else if opcode = 0xAA then do
    let value := cpu.state.accumulator
    let cpu := { cpu with state.index_x := value }
    let cpu := (cpu.set_negative_flag value).set_zero_flag value
    let pc ← chkAdd16 cpu.state.program_counter 1
    let cpu := { cpu with state.program_counter := pc, wait_cycles := 2 }
    pure (cpu, mem, "TAX", none)
  else if opcode = 0xA0 then do
    let value ← cpu.read_immediate mem
    let cpu := { cpu with state.index_y := value }
    let cpu := (cpu.set_negative_flag value).set_zero_flag value
    let pc ← chkAdd16 cpu.state.program_counter 2
    let cpu := { cpu with state.program_counter := pc, wait_cycles := 2 }
    pure (cpu, mem, "LDY #$" ++ hex2 value, none)
  else if opcode = 0xA2 then do
    let a1 ← chkAdd16 cpu.state.program_counter 1
    let value := mem.read a1
    let cpu := { cpu with state.index_x := value }
    let cpu := (cpu.set_negative_flag value).set_zero_flag value
    let pc ← chkAdd16 cpu.state.program_counter 2
    let cpu := { cpu with state.program_counter := pc, wait_cycles := 2 }
    pure (cpu, mem, "LDX #$" ++ hex2 value, none)
  else if opcode = 0xA4 then do
    let addr ← cpu.read_zeropage_addr mem
    let value := mem.read addr
    let cpu := { cpu with state.index_y := value }
    let cpu := (cpu.set_negative_flag value).set_zero_flag value
    let pc ← chkAdd16 cpu.state.program_counter 2
    let cpu := { cpu with state.program_counter := pc, wait_cycles := 3 }
    pure (cpu, mem, "LDY $" ++ hex2 addr, none)
  else if opcode = 0xA6 then do
    let addr ← cpu.read_zeropage_addr mem
    let value := mem.read addr
    let cpu := { cpu with state.index_x := value }
    let cpu := (cpu.set_negative_flag value).set_zero_flag value
    let pc ← chkAdd16 cpu.state.program_counter 2
    let cpu := { cpu with state.program_counter := pc, wait_cycles := 3 }
    pure (cpu, mem, "LDX $" ++ hex2 addr, none)
  else if opcode = 0xA8 then do
    let value := cpu.state.accumulator
    let cpu := { cpu with state.index_y := value }
    let cpu := (cpu.set_negative_flag value).set_zero_flag value
    let pc ← chkAdd16 cpu.state.program_counter 1
    let cpu := { cpu with state.program_counter := pc, wait_cycles := 2 }
    pure (cpu, mem, "TAY", none)
  else if opcode = 0xA9 then do
    let a1 ← chkAdd16 cpu.state.program_counter 1
    let value := mem.read a1
    let cpu := { cpu with state.accumulator := value }
    let cpu := (cpu.set_negative_flag value).set_zero_flag value
    let pc ← chkAdd16 cpu.state.program_counter 2
    let cpu := { cpu with state.program_counter := pc, wait_cycles := 2 }
    pure (cpu, mem, "LDA #$" ++ hex2 value, none)
  else if opcode = 0xAC then do
    let addr ← cpu.read_absolute_addr mem
    let value := mem.read addr
    let cpu := { cpu with state.index_y := value }
    let cpu := (cpu.set_negative_flag value).set_zero_flag value
    let pc ← chkAdd16 cpu.state.program_counter 3
    let cpu := { cpu with state.program_counter := pc, wait_cycles := 4 }
    pure (cpu, mem, "LDY $" ++ hex4 addr, none)
  else if opcode = 0xAD then do
    let addr ← cpu.read_absolute_addr mem
    let value := mem.read addr
    let cpu := { cpu with state.accumulator := value }
    let cpu := (cpu.set_negative_flag value).set_zero_flag value
    let pc ← chkAdd16 cpu.state.program_counter 3
    let cpu := { cpu with state.program_counter := pc, wait_cycles := 4 }
    pure (cpu, mem, "LDA $" ++ hex4 addr, none)
  else if opcode = 0xAE then do
    let addr ← cpu.read_absolute_addr mem
    let value := mem.read addr
    let cpu := { cpu with state.index_x := value }
    let cpu := (cpu.set_negative_flag value).set_zero_flag value
    let pc ← chkAdd16 cpu.state.program_counter 3
    let cpu := { cpu with state.program_counter := pc, wait_cycles := 4 }
    pure (cpu, mem, "LDX $" ++ hex4 addr, none)
  else if opcode = 0xB0 then do
    let ra ← cpu.read_relative_addr mem
    let addr ← chkAdd16 ra 2
    if cpu.state.status_register.carry_flag then
      let cpu := { cpu with state.program_counter := addr }
      let w : Int := if same_page cpu.state.program_counter addr then 3 else 4
      let cpu := { cpu with wait_cycles := w }
      pure (cpu, mem, "BCS $" ++ hex4 addr, none)
    else do
      let pc ← chkAdd16 cpu.state.program_counter 2
      let cpu := { cpu with state.program_counter := pc, wait_cycles := 2 }
      pure (cpu, mem, "BCS $" ++ hex4 addr, none)
  else if opcode = 0xB1 then do
    let (vector_addr, addr) ← cpu.read_indirect_y_indexed_addr mem
    let value := mem.read addr
    let cpu := { cpu with state.accumulator := value }
    let cpu := (cpu.set_negative_flag value).set_zero_flag value
    let pc ← chkAdd16 cpu.state.program_counter 2
    let cpu := { cpu with state.program_counter := pc }
    let w : Int := if same_page cpu.state.program_counter addr then 5 else 6
    let cpu := { cpu with wait_cycles := w }
    pure (cpu, mem, "LDA ($" ++ hex2 vector_addr ++ "),Y", none)
  else if opcode = 0xB4 then do
    let (base_addr, addr) ← cpu.read_indexed_zeropage_x mem
    let value := mem.read addr
    let cpu := { cpu with state.index_y := value }
    let cpu := (cpu.set_negative_flag value).set_zero_flag value
    let pc ← chkAdd16 cpu.state.program_counter 2
    let cpu := { cpu with state.program_counter := pc, wait_cycles := 4 }
    pure (cpu, mem, "LDY $" ++ hex2 base_addr ++ ",X", none)
  else if opcode = 0xB5 then do
    let (base_addr, addr) ← cpu.read_indexed_zeropage_x mem
    let value := mem.read addr
    let cpu := { cpu with state.accumulator := value }
    let cpu := (cpu.set_negative_flag value).set_zero_flag value
    let pc ← chkAdd16 cpu.state.program_counter 2
    let cpu := { cpu with state.program_counter := pc, wait_cycles := 4 }
    pure (cpu, mem, "LDA $" ++ hex2 base_addr ++ ",X", none)
  else if opcode = 0xB9 then do
    let abs_addr ← cpu.read_absolute_addr mem
    let addr ← chkAdd16 abs_addr cpu.state.index_y
    let value := mem.read addr
    let cpu := { cpu with state.accumulator := value }
    let cpu := (cpu.set_negative_flag value).set_zero_flag value
    let pc ← chkAdd16 cpu.state.program_counter 3
    let cpu := { cpu with state.program_counter := pc }
    let w : Int := if same_page cpu.state.program_counter addr then 4 else 5
    let cpu := { cpu with wait_cycles := w }
    pure (cpu, mem, "LDA $" ++ hex4 abs_addr ++ ",Y", none)
  else if opcode = 0xBA then do
    let value := cpu.state.stack_pointer
    let cpu := { cpu with state.index_x := value }
    let cpu := (cpu.set_negative_flag value).set_zero_flag value
    let pc ← chkAdd16 cpu.state.program_counter 1
    let cpu := { cpu with state.program_counter := pc, wait_cycles := 2 }
    pure (cpu, mem, "TSX", none)
  else if opcode = 0xBD then do
    let abs_addr ← cpu.read_absolute_addr mem
    let addr ← chkAdd16 abs_addr cpu.state.index_x
    let value := mem.read addr
    let cpu := { cpu with state.accumulator := value }
    let cpu := (cpu.set_negative_flag value).set_zero_flag value
    let pc ← chkAdd16 cpu.state.program_counter 3
    let cpu := { cpu with state.program_counter := pc }
    let w : Int := if same_page cpu.state.program_counter addr then 4 else 5
    let cpu := { cpu with wait_cycles := w }
    pure (cpu, mem, "LDA $" ++ hex4 abs_addr ++ ",X", none)
  else if opcode = 0xC0 then do
    let operand1 := cpu.state.index_y
    let operand2 ← cpu.read_immediate mem
    let cpu := cpu.compare operand1 operand2
    let pc ← chkAdd16 cpu.state.program_counter 2
    let cpu := { cpu with state.program_counter := pc, wait_cycles := 2 }
    pure (cpu, mem, "CPY #$" ++ hex2 operand2, none)
  else if opcode = 0xC4 then do
    let operand1 := cpu.state.index_y
    let addr ← cpu.read_zeropage_addr mem
    let operand2 := mem.read addr
    let cpu := cpu.compare operand1 operand2
    let pc ← chkAdd16 cpu.state.program_counter 2
    let cpu := { cpu with state.program_counter := pc, wait_cycles := 3 }
    pure (cpu, mem, "CPY $" ++ hex2 addr, none)
  else if opcode = 0xC5 then do
    let operand1 := cpu.state.accumulator
    let addr ← cpu.read_zeropage_addr mem
    let operand2 := mem.read addr
    let cpu := cpu.compare operand1 operand2
    let pc ← chkAdd16 cpu.state.program_counter 2
    let cpu := { cpu with state.program_counter := pc, wait_cycles := 3 }
    pure (cpu, mem, "CMP $" ++ hex2 addr, none)
  else if opcode = 0xC6 then do
    let addr ← cpu.read_zeropage_addr mem
    let (cpu, mem, effect) := cpu.decrement_memory mem addr
    let pc ← chkAdd16 cpu.state.program_counter 2
    let cpu := { cpu with state.program_counter := pc, wait_cycles := 6 }
    pure (cpu, mem, "DEC $" ++ hex2 addr, some effect)
  else if opcode = 0xC8 then do
    let value := (cpu.state.index_y + 1) % 256
    let cpu := { cpu with state.index_y := value }
    let cpu := (cpu.set_negative_flag value).set_zero_flag value
    let pc ← chkAdd16 cpu.state.program_counter 1
    let cpu := { cpu with state.program_counter := pc, wait_cycles := 2 }
    pure (cpu, mem, "INY", none)
  else if opcode = 0xC9 then do
    let operand1 := cpu.state.accumulator
    let operand2 ← cpu.read_immediate mem
    let cpu := cpu.compare operand1 operand2
    let pc ← chkAdd16 cpu.state.program_counter 2
    let cpu := { cpu with state.program_counter := pc, wait_cycles := 2 }
    pure (cpu, mem, "CMP #$" ++ hex2 operand2, none)
  else if opcode = 0xCA then do
    let value := (256 + cpu.state.index_x - 1) % 256
    let cpu := { cpu with state.index_x := value }
    let cpu := (cpu.set_negative_flag value).set_zero_flag value
    let pc ← chkAdd16 cpu.state.program_counter 1
    let cpu := { cpu with state.program_counter := pc, wait_cycles := 2 }
    pure (cpu, mem, "DEX", none)
  else if opcode = 0xCD then do
    let addr ← cpu.read_absolute_addr mem
    let operand1 := cpu.state.accumulator
    let operand2 := mem.read addr
    let cpu := cpu.compare operand1 operand2
    let pc ← chkAdd16 cpu.state.program_counter 3
    let cpu := { cpu with state.program_counter := pc, wait_cycles := 4 }
    pure (cpu, mem, "CMP $" ++ hex4 addr, none)
  else if opcode = 0xD0 then do
    let ra ← cpu.read_relative_addr mem
    let addr ← chkAdd16 ra 2
    if cpu.state.status_register.zero_flag = false then
      let cpu := { cpu with state.program_counter := addr }
      let w : Int := if same_page cpu.state.program_counter addr then 3 else 4
      let cpu := { cpu with wait_cycles := w }
      pure (cpu, mem, "BNE $" ++ hex4 addr, none)
    else do
      let pc ← chkAdd16 cpu.state.program_counter 2
      let cpu := { cpu with state.program_counter := pc, wait_cycles := 2 }
      pure (cpu, mem, "BNE $" ++ hex4 addr, none)
  else if opcode = 0xD1 then do
    let (vector_addr, addr) ← cpu.read_indirect_y_indexed_addr mem
    let operand1 := cpu.state.accumulator
    let operand2 := mem.read addr
    let cpu := cpu.compare operand1 operand2
    let pc ← chkAdd16 cpu.state.program_counter 2
    let cpu := { cpu with state.program_counter := pc }
    let w : Int := if same_page cpu.state.program_counter addr then 5 else 6
    let cpu := { cpu with wait_cycles := w }
    pure (cpu, mem, "CMP ($" ++ hex2 vector_addr ++ "),Y", none)
  else if opcode = 0xD8 then do
    let cpu := { cpu with state.status_register.decimal_mode_flag := false }
    let pc ← chkAdd16 cpu.state.program_counter 1
    let cpu := { cpu with state.program_counter := pc, wait_cycles := 2 }
    pure (cpu, mem, "CLD", none)
  else if opcode = 0xDD then do
    let abs_addr ← cpu.read_absolute_addr mem
    let addr ← chkAdd16 abs_addr cpu.state.index_x
    let operand1 := cpu.state.accumulator
    let operand2 := mem.read addr
    let cpu := cpu.compare operand1 operand2
    let pc ← chkAdd16 cpu.state.program_counter 3
    let cpu := { cpu with state.program_counter := pc }
    let w : Int := if same_page cpu.state.program_counter addr then 4 else 5
    let cpu := { cpu with wait_cycles := w }
    pure (cpu, mem, "CMP $" ++ hex4 abs_addr ++ ",X", none)
  else if opcode = 0xE0 then do
    let operand1 := cpu.state.index_x
    let operand2 ← cpu.read_immediate mem
    let cpu := cpu.compare operand1 operand2
    let pc ← chkAdd16 cpu.state.program_counter 2
    let cpu := { cpu with state.program_counter := pc, wait_cycles := 2 }
    pure (cpu, mem, "CPX #$" ++ hex2 operand2, none)
  else if opcode = 0xE4 then do
    let addr ← cpu.read_zeropage_addr mem
    let operand1 := cpu.state.index_x
    let operand2 := mem.read addr
    let cpu := cpu.compare operand1 operand2
    let pc ← chkAdd16 cpu.state.program_counter 2
    let cpu := { cpu with state.program_counter := pc, wait_cycles := 3 }
    pure (cpu, mem, "CPX $" ++ hex2 addr, none)
  else if opcode = 0xE5 then do
    let addr ← cpu.read_zeropage_addr mem
    let operand := mem.read addr
    let cpu := cpu.subtract_with_carry operand
    let pc ← chkAdd16 cpu.state.program_counter 2
    let cpu := { cpu with state.program_counter := pc, wait_cycles := 3 }
    pure (cpu, mem, "SBC $" ++ hex2 addr, none)
  else if opcode = 0xE6 then do
    let addr ← cpu.read_zeropage_addr mem
    let value ← chkAdd8 (mem.read addr) 1
    let mem := mem.write addr value
    let cpu := (cpu.set_negative_flag value).set_zero_flag value
    let pc ← chkAdd16 cpu.state.program_counter 2
    let cpu := { cpu with state.program_counter := pc, wait_cycles := 5 }
    pure (cpu, mem, "INC $" ++ hex2 addr, some (.WriteMem addr value))
  else if opcode = 0xE8 then do
    let value := (cpu.state.index_x + 1) % 256
    let cpu := { cpu with state.index_x := value }
    let cpu := (cpu.set_negative_flag value).set_zero_flag value
    let pc ← chkAdd16 cpu.state.program_counter 1
    let cpu := { cpu with state.program_counter := pc, wait_cycles := 2 }
    pure (cpu, mem, "INX", none)
  else if opcode = 0xE9 then do
    let operand ← cpu.read_immediate mem
    let cpu := cpu.subtract_with_carry operand
    let pc ← chkAdd16 cpu.state.program_counter 2
    let cpu := { cpu with state.program_counter := pc, wait_cycles := 2 }
    pure (cpu, mem, "SBC #$" ++ hex2 operand, none)
  else if opcode = 0xEC then do
    let addr ← cpu.read_absolute_addr mem
    let operand1 := cpu.state.index_x
    let operand2 := mem.read addr
    let cpu := cpu.compare operand1 operand2
    let pc ← chkAdd16 cpu.state.program_counter 3
    let cpu := { cpu with state.program_counter := pc, wait_cycles := 4 }
    pure (cpu, mem, "CPX $" ++ hex4 addr, none)
  else if opcode = 0xF0 then do
    let ra ← cpu.read_relative_addr mem
    let addr ← chkAdd16 ra 2
    if cpu.state.status_register.zero_flag then
      let cpu := { cpu with state.program_counter := addr }
      let w : Int := if same_page cpu.state.program_counter addr then 3 else 4
      let cpu := { cpu with wait_cycles := w }
      pure (cpu, mem, "BEQ $" ++ hex4 addr, none)
    else do
      let pc ← chkAdd16 cpu.state.program_counter 2
      let cpu := { cpu with state.program_counter := pc, wait_cycles := 2 }
      pure (cpu, mem, "BEQ $" ++ hex4 addr, none)
  else
    .error (.err ("UNKNOWN OPCODE: 0x" ++ hex2 opcode))

/-- `Mos6510::run_instruction`: fetch the opcode byte at `PC` and dispatch
on it. -/
def Mos6510.run_instruction (cpu : Mos6510) (mem : Mem) :
    CpuM (Mos6510 × Mem × String × Option Effect) :=
  cpu.dispatch mem (mem.read cpu.state.program_counter)

/-- The implemented-opcode table of `Mos6510::run_instruction`: `true` exactly
on the opcodes that have an arm in the source `match` (in source order); an
opcode with no arm falls through to the fatal decode error. -/
def isImplemented (op : Nat) : Bool :=
  if op = 0x05 then true
  else if op = 0x06 then true
  else if op = 0x08 then true
  else if op = 0x09 then true
  else if op = 0x0A then true
  else if op = 0x0D then true
  else if op = 0x10 then true
  else if op = 0x16 then true
  else if op = 0x18 then true
  else if op = 0x20 then true
  else if op = 0x24 then true
  else if op = 0x28 then true
  else if op = 0x29 then true
  else if op = 0x2A then true
  else if op = 0x2C then true
  else if op = 0x30 then true
  else if op = 0x38 then true
  else if op = 0x40 then true
  else if op = 0x45 then true
  else if op = 0x46 then true
  else if op = 0x48 then true
  else if op = 0x49 then true
  else if op = 0x4A then true
  else if op = 0x4C then true
  else if op = 0x56 then true
  else if op = 0x58 then true
  else if op = 0x60 then true
  else if op = 0x65 then true
  else if op = 0x66 then true
  else if op = 0x68 then true
  else if op = 0x69 then true
  else if op = 0x6A then true
  else if op = 0x6C then true
  else if op = 0x70 then true
  else if op = 0x76 then true
  else if op = 0x78 then true
  else if op = 0x79 then true
  else if op = 0x8D then true
  else if op = 0x85 then true
  else if op = 0x84 then true
  else if op = 0x86 then true
  else if op = 0x88 then true
  else if op = 0x8A then true
  else if op = 0x8C then true
  else if op = 0x8E then true
  else if op = 0x90 then true
  else if op = 0x91 then true
  else if op = 0x94 then true
  else if op = 0x95 then true
  else if op = 0x98 then true
  else if op = 0x99 then true
  else if op = 0x9A then true
  else if op = 0x9D then true
  else if op = 0xA5 then true
  else if op = 0xAA then true
  else if op = 0xA0 then true
  else if op = 0xA2 then true
  else if op = 0xA4 then true
  else if op = 0xA6 then true
  else if op = 0xA8 then true
  else if op = 0xA9 then true
  else if op = 0xAC then true
  else if op = 0xAD then true
  else if op = 0xAE then true
  else if op = 0xB0 then true
  else if op = 0xB1 then true
  else if op = 0xB4 then true
  else if op = 0xB5 then true
  else if op = 0xB9 then true
  else if op = 0xBA then true
  else if op = 0xBD then true
  else if op = 0xC0 then true
  else if op = 0xC4 then true
  else if op = 0xC5 then true
  else if op = 0xC6 then true
  else if op = 0xC8 then true
  else if op = 0xC9 then true
  else if op = 0xCA then true
  else if op = 0xCD then true
  else if op = 0xD0 then true
  else if op = 0xD1 then true
  else if op = 0xD8 then true
  else if op = 0xDD then true
  else if op = 0xE0 then true
  else if op = 0xE4 then true
  else if op = 0xE5 then true
  else if op = 0xE6 then true
  else if op = 0xE8 then true
  else if op = 0xE9 then true
  else if op = 0xEC then true
  else if op = 0xF0 then true
  else false

/-- `Mos6510::tick`: latch the IRQ line, decrement `wait_cycles` (checked
`i8`), and when it has reached zero or below either take the pending IRQ
(push `PC`, push the packed status byte, set `PC` to the fixed handler
address `0xFF48`, clear the latch) — if the `I` flag is clear — or dispatch
the next instruction via `run_instruction`. -/
def Mos6510.tick (cpu : Mos6510) (mem : Mem) (irq : Bool) :
    CpuM (Mos6510 × Mem × Option String × Option Effect) := do
  let cpu := if irq then { cpu with irq := true } else cpu
  let w ← chkDecI8 cpu.wait_cycles
  let cpu := { cpu with wait_cycles := w }
  if w ≤ 0 then
    if cpu.irq && !cpu.state.status_register.interrupt_disable_flag then do
      let pc := cpu.state.program_counter
      let sr := cpu.status_register_value
      let (cpu, mem) ← cpu.push16 mem pc
      let (cpu, mem) ← cpu.push8 mem sr
      let cpu := { cpu with state.program_counter := 0xFF48, irq := false }
      pure (cpu, mem, none, none)
    else do
      let (cpu, mem, name, eff) ← cpu.run_instruction mem
      pure (cpu, mem, some name, eff)
  else
    pure (cpu, mem, none, none)

/-- `cia1.rs`: the `Cia1` struct. `ics` is the interrupt control/status
register (`ICS` bitflags, bit 0 = timer-A underflow), `tacr` the timer-A
control register (`TACR` bitflags: bit 0 `START_TIMER`, bit 3
`STOP_ON_UNDERFLOW`). -/
structure Cia1 where
  timer_a : Nat
  timer_a_start : Nat
  ics : Nat
  tacr : Nat
deriving DecidableEq

/-- `cia1.rs`: the effect a CIA tick can produce — asserting the IRQ line. -/
inductive CiaEffect where
  | IRQ : CiaEffect
deriving DecidableEq

/-- `Cia1::timer_a_underflow`: in one-shot mode clear `START_TIMER`,
otherwise reload `timer_a` from the latch; produce an IRQ iff the timer-A
bit of `ics` is set, then set that bit. -/
def Cia1.timer_a_underflow (c : Cia1) : Cia1 × Option CiaEffect :=
  let c :=
    if c.tacr &&& 8 = 8 then { c with tacr := c.tacr &&& 0xFE }
    else { c with timer_a := c.timer_a_start }
  let result := if c.ics &&& 1 = 1 then some CiaEffect.IRQ else none
  ({ c with ics := c.ics ||| 1 }, result)

/-- `Cia1::tick`: when `START_TIMER` is set, `timer_a.checked_sub(1)` —
decrement while possible, underflow at zero. -/
def Cia1.tick (c : Cia1) : Cia1 × Option CiaEffect :=
  if c.tacr &&& 1 = 1 then
    if 1 ≤ c.timer_a then ({ c with timer_a := c.timer_a - 1 }, none)
    else c.timer_a_underflow
  else (c, none)

/-- `n` consecutive calls to `Cia1::tick`, keeping the state. -/
def ciaRun : Nat → Cia1 → Cia1
  | 0, c => c
  | n + 1, c => (Cia1.tick (ciaRun n c)).1

/-- `vic_ii.rs`, end of `VicII::tick`: advance the raster counters — `x += 8`;
at `x ≥ 504` reset `x` and increment `line`; at `line ≥ 312` reset `line`.
The state is the pair `(x_coord, raster_line)`. -/
def vicAdvance (s : Nat × Nat) : Nat × Nat :=
  let x := s.1 + 8
  let p := if 504 ≤ x then (0, s.2 + 1) else (x, s.2)
  if 312 ≤ p.2 then (p.1, 0) else p

/-- `n` VIC ticks (counter part only). -/
def vicRun : Nat → Nat × Nat → Nat × Nat
  | 0, s => s
  | n + 1, s => vicAdvance (vicRun n s)

/-- The memory fabric owned by `Machine` in `main.rs`, restricted to the
stores that its address decoder `read_mem`/`write_mem` touches: the 64 KiB
`memory`, the `io` shadow, the VIC register file, the VIC bank base and the
char-ROM overlay flag. (The interpreter registers of `Machine` duplicate
`mos6510.rs` and are not read by the bus functions.)

The `VicII` type used by `main.rs` (`vic.read`/`vic.write` with a bank
slice) is not among the provided sources. Modelled from the spec: its
register file is a byte store indexed by `addr & 0x3F`; a write stores the
byte, a read returns the last-written value (or 0). -/
structure Machine where
  memory : Mem
  io : Mem
  vic_regs : Mem
  vic_bank_start : Nat
  char_rom_enabled : Bool

/-- `Machine::read_mem` (`main.rs`): `0xD000–0xD3FF` → VIC register read
(spec-modelled, see `Machine`), `0xD400–0xDFFF` → `io` shadow, everything
else → `memory`. -/
def Machine.read_mem (m : Machine) (addr : Nat) : Nat :=
  if 0xD000 ≤ addr ∧ addr < 0xD400 then m.vic_regs.read (addr &&& 0x3F)
  else if 0xD400 ≤ addr ∧ addr < 0xE000 then m.io.read addr
  else m.memory.read addr

/-- `Machine::write_mem` (`main.rs`): writes into `0xA000–0xBFFF` and
`0xE000–0xFFFF` are ignored ("Tried to write to ROM, ignoring");
`0xD000–0xD3FF` goes to the VIC register file (spec-modelled);
`0xD400–0xDFFF` goes to the `io` shadow, and a write to `0xDD00`
additionally sets the VIC bank base to `16384 * (3 - (value & 3))` and the
char-ROM overlay flag to bit 0; everything else goes to `memory`. -/
def Machine.write_mem (m : Machine) (addr value : Nat) : Machine :=
  if (0xA000 ≤ addr ∧ addr < 0xC000) ∨ 0xE000 ≤ addr then m
  else if 0xD000 ≤ addr ∧ addr < 0xD400 then
    { m with vic_regs := m.vic_regs.write (addr &&& 0x3F) value }
  else if 0xD400 ≤ addr ∧ addr < 0xE000 then
    let m := { m with io := m.io.write addr value }
    if addr = 0xDD00 then
      { m with vic_bank_start := 16384 * (3 - (value &&& 3)),
               char_rom_enabled := value &&& 1 != 0 }
    else m
  else { m with memory := m.memory.write addr value }

/-- The region condition asserted by the bus-decoding claim, following the
spec's words (§4.1): the address lies in a RAM region (0x0000–0x9FFF,
0xC000–0xCFFF), the color RAM (0xD800–0xDBFF) or the I/O shadow
(0xD400–0xD7FF, 0xDD00–0xDFFF), and is neither in a ROM window
(0xA000–0xBFFF, 0xE000–0xFFFF) nor a side-effect device register (the CIA
interrupt-status register 0xDC0D, whose read clears it per §4.3). -/
def claimRegionOk (a : Nat) : Bool :=
  (decide (a < 0xA000) || decide (0xC000 ≤ a ∧ a < 0xD000) ||
   decide (0xD800 ≤ a ∧ a < 0xDC00) ||
   decide (0xD400 ≤ a ∧ a < 0xD800) || decide (0xDD00 ≤ a ∧ a < 0xE000)) &&
  !(decide ((0xA000 ≤ a ∧ a < 0xC000) ∨ (0xE000 ≤ a ∧ a < 0x10000))) &&
  !(decide (a = 0xDC0D))

/-- The ROM windows of the bus (`main.rs` ignores writes there). -/
def isRomWindow (a : Nat) : Bool :=
  decide ((0xA000 ≤ a ∧ a < 0xC000) ∨ 0xE000 ≤ a)

/-- The overflow rule the spec states for ADC, following the spec's words:
`V` = "same-sign operands, different-sign result" (sign = bit 7). -/
def adcOverflowSpec (a m r : Nat) : Bool :=
  (a &&& 0x80 == m &&& 0x80) && (r &&& 0x80 != a &&& 0x80)

/-- The all-clear status register (power-on state of `Mos6510::new`). -/
def sr0 : StatusRegister :=
  { negative_flag := false, overflow_flag := false, break_flag := false,
    decimal_mode_flag := false, interrupt_disable_flag := false,
    zero_flag := false, carry_flag := false }

/-- Build a CPU state for the concrete test inputs. -/
def mkCpu (pc sp a x y : Nat) (sr : StatusRegister) (w : Int) : Mos6510 :=
  { state := { program_counter := pc, stack_pointer := sp, status_register := sr,
               accumulator := a, index_x := x, index_y := y },
    wait_cycles := w, irq := false }

/-- All-zero memory. -/
def memZ : Mem := fun _ => 0

/-- Memory holding the IRQ vector 0x1234 at 0xFFFE/0xFFFF. -/
def c1Mem : Mem := fun a => if a = 0xFFFE then 0x34 else if a = 0xFFFF then 0x12 else 0

/-- Memory holding `D0 05` (BNE +5) at 0x80FD. -/
def c2Mem : Mem := fun a => if a = 0x80FD then 0xD0 else if a = 0x80FE then 0x05 else 0

/-- Memory holding `69 50` (ADC #$50) at 0x9000. -/
def c4Mem : Mem := fun a => if a = 0x9000 then 0x69 else if a = 0x9001 then 0x50 else 0

/-- Memory whose every byte is the unimplemented opcode 0x02. -/
def c5Mem : Mem := fun _ => 0x02

/-- Memory holding `40` (RTI) at 0x3000 and a return frame (`P`=0xB5,
`PC`=0x1234) on the stack above SP=0xF0. -/
def c6Mem : Mem := fun a =>
  if a = 0x3000 then 0x40 else if a = 0x1F1 then 0xB5
  else if a = 0x1F2 then 0x34 else if a = 0x1F3 then 0x12 else 0

/-- Memory holding `E6 10` (INC $10) at 0x0200 with `mem[0x10] = 0xFF`. -/
def c10MemFF : Mem := fun a =>
  if a = 0x0200 then 0xE6 else if a = 0x0201 then 0x10
  else if a = 0x10 then 0xFF else 0

/-- Memory holding `E6 10` (INC $10) at 0x0200 with `mem[0x10] = 0x12`. -/
def c10Mem12 : Mem := fun a =>
  if a = 0x0200 then 0xE6 else if a = 0x0201 then 0x10
  else if a = 0x10 then 0x12 else 0

/-- The zero-initialized machine bus (`Machine::new`: all stores zeroed,
`vic_bank_start = 0xC000`). -/
def mach0 : Machine :=
  { memory := (fun _ => 0), io := (fun _ => 0), vic_regs := (fun _ => 0),
    vic_bank_start := 0xC000, char_rom_enabled := false }

/-- Setting bit 0 leaves bit 0 set. -/
theorem or_one_and_one (m : Nat) : (m ||| 1) &&& 1 = 1 := by
  simp [Nat.and_one_is_mod]

/-- While the timer has not run out, `Cia1::tick` only decrements `timer_a`:
`k` ticks subtract `k`, for `k ≤ timer_a`, when `START_TIMER` is set. -/
theorem ciaRun_countdown (c : Cia1) (hs : c.tacr &&& 1 = 1) :
    ∀ k, k ≤ c.timer_a → ciaRun k c = { c with timer_a := c.timer_a - k } := by
  intro k
  induction k with
  | zero => intro _; simp [ciaRun]
  | succ n ih =>
      intro hk
      have hn : n ≤ c.timer_a := Nat.le_of_succ_le hk
      have h1 : 1 ≤ c.timer_a - n := by omega
      have h2 : c.timer_a - n - 1 = c.timer_a - (n + 1) := by omega
      simp only [ciaRun, ih hn, Cia1.tick, hs, if_pos, h1, if_true]
      rw [h2]

/-- C1: at a concrete state with the IRQ line asserted, the `I` flag clear
and `wait_cycles = 0`, `Mos6510::tick` pushes PC (`0xAB`, `0xCD`) and then
the packed status byte `0x10` — the `B` flag exactly as stored (set here),
not cleared — and sets PC to the fixed handler address `0xFF48` instead of
loading it from the IRQ vector at 0xFFFE/0xFFFF (which holds 0x1234 in this
memory): the code contradicts the claimed vector-based IRQ entry. -/
theorem c1_irq_entry_eval :
    ((mkCpu 0xABCD 0xFF 0 0 0 { sr0 with break_flag := true } 0).tick c1Mem true).map
        (fun r => (r.1.state.program_counter, r.1.state.stack_pointer,
          r.2.1.read 0x01FF, r.2.1.read 0x01FE, r.2.1.read 0x01FD, r.1.irq))
      = .ok (0xFF48, 0xFC, 0xAB, 0xCD, 0x10, false)
    ∧ c1Mem.read 0xFFFE + (c1Mem.read 0xFFFF <<< 8) = 0x1234
    ∧ (0xFF48 : Nat) ≠ 0x1234 ∧ (0x10 : Nat) &&& 0x10 ≠ 0 :=
  ⟨rfl, rfl, by decide, by decide⟩

/-- C2: at the claim's own concrete input (PC=0x80FD, memory `D0 05`, Z=0)
the taken BNE lands at PC=0x8104 but sets `wait_cycles` to 3, not 4: the
code tests `same_page` after `PC := addr`, so the page-cross +1 can never
fire. The untaken case (Z=1) matches the claim: PC=0x80FF, `wait_cycles`=2.
The final conjunct records that the branch target 0x8104 and the address
0x80FF of the next instruction are in different pages. -/
theorem c2_bne_page_cross_eval :
    ((mkCpu 0x80FD 0xFF 0 0 0 sr0 0).run_instruction c2Mem).map
        (fun r => (r.1.state.program_counter, r.1.wait_cycles))
      = .ok (0x8104, 3)
    ∧ ((mkCpu 0x80FD 0xFF 0 0 0 { sr0 with zero_flag := true } 0).run_instruction c2Mem).map
        (fun r => (r.1.state.program_counter, r.1.wait_cycles))
      = .ok (0x80FF, 2)
    ∧ same_page 0x8104 0x80FF = false :=
  ⟨rfl, rfl, by decide⟩

/-- C4: `Mos6510::add_with_carry` at the claim's positive example
(A=0x50, C=0, `ADC #$50`) yields A=0xA0, N=1, V=1, C=0, Z=0 — but at the
failing input A=0x80, M=0x80, C=0 (two negative operands, non-negative
result 0x00) the code leaves V clear, although the spec's rule "same-sign
operands, different-sign result" (`adcOverflowSpec`) demands V set: the
source only checks the non-negative + non-negative case. -/
theorem c4_adc_overflow_eval :
    ((mkCpu 0x9000 0xFF 0x50 0 0 sr0 0).run_instruction c4Mem).map
        (fun r => (r.1.state.accumulator,
          r.1.state.status_register.negative_flag,
          r.1.state.status_register.overflow_flag,
          r.1.state.status_register.carry_flag,
          r.1.state.status_register.zero_flag))
      = .ok (0xA0, true, true, false, false)
    ∧ ((mkCpu 0 0 0x80 0 0 sr0 0).add_with_carry 0x80).state.accumulator = 0x00
    ∧ ((mkCpu 0 0 0x80 0 0 sr0 0).add_with_carry 0x80).state.status_register.overflow_flag
        = false
    ∧ adcOverflowSpec 0x80 0x80 0x00 = true :=
  ⟨rfl, rfl, rfl, by decide⟩

/-- C6: the RTI arm (opcode 0x40) of `Mos6510::run_instruction` never
assigns `wait_cycles`: dispatching RTI at a state with `wait_cycles = 0`
returns successfully with `wait_cycles` still 0, which is below the claimed
lower bound of 2 (every other arm assigns a constant in 2..6). -/
theorem c6_rti_wait_cycles_eval :
    ((mkCpu 0x3000 0xF0 0 0 0 sr0 0).run_instruction c6Mem).map
        (fun r => (r.1.wait_cycles, r.1.state.program_counter, r.2.2.1))
      = .ok (0, 0x1234, "RTI")
    ∧ ¬ (2 ≤ (0 : Int)) :=
  ⟨rfl, by decide⟩

/-- C7: the `SP -= 1` of `Mos6510::push8` and the `SP += 1` of
`Mos6510::pop8` are checked `u8` arithmetic: at the boundary inputs SP=0x00
(push) and SP=0xFF (pop) they overflow and the embedded operations fault
(`panic`), instead of wrapping within the stack page as the claim states.
Away from the boundary the operations do stay within the page: push at
SP=0x80 writes `0x0180` and leaves SP=0x7F. -/
theorem c7_stack_boundary_trap :
    (mkCpu 0 0x00 0 0 0 sr0 0).push8 memZ 0x42 = .error .panic
    ∧ (mkCpu 0 0xFF 0 0 0 sr0 0).pop8 memZ = .error .panic
    ∧ ((mkCpu 0 0x80 0 0 0 sr0 0).push8 memZ 0x42).map
        (fun r => (r.1.state.stack_pointer, r.2.read 0x0180)) = .ok (0x7F, 0x42) :=
  ⟨rfl, rfl, rfl⟩

/-- C10: the INC zp arm (opcode 0xE6) computes `mem.read(addr) + 1` with
checked `u8` addition: at a zero-page byte 0xFF the increment overflows and
the embedded instruction faults (`panic`) instead of wrapping to 0x00 with
Z=1, N=0. At a non-boundary byte (0x12) the same instruction succeeds and
stores 0x13. -/
theorem c10_inc_zp_overflow_eval :
    (mkCpu 0x0200 0xFF 0 0 0 sr0 0).run_instruction c10MemFF = .error .panic
    ∧ ((mkCpu 0x0200 0xFF 0 0 0 sr0 0).run_instruction c10Mem12).map
        (fun r => (r.2.1.read 0x10, r.1.state.program_counter, r.1.wait_cycles))
      = .ok (0x13, 0x0202, 5) :=
  ⟨rfl, rfl⟩

/-- C3: the CIA underflow law. From a `Cia1` state with latch = value = L,
`START_TIMER` set, `STOP_ON_UNDERFLOW` clear (continuous mode) and an
arbitrary interrupt control/status byte `m`, after exactly L+1 ticks the
timer-A underflow bit (bit 0 of `ics`) is set and `timer_a` equals L again
(reloaded from the latch); the underflow tick (tick L+1) produces the IRQ
effect iff bit 0 of `m` — the timer-A interrupt bit, which this code uses
both as mask and as status — is set. -/
theorem c3_cia_underflow_law (L m t : Nat) (_hL : 0 < L)
    (hstart : t &&& 1 = 1) (hstop : t &&& 8 = 0) :
    ((ciaRun (L + 1) { timer_a := L, timer_a_start := L, ics := m, tacr := t }).ics &&& 1 = 1)
    ∧ ((ciaRun (L + 1) { timer_a := L, timer_a_start := L, ics := m, tacr := t }).timer_a = L)
    ∧ ((Cia1.tick (ciaRun L { timer_a := L, timer_a_start := L, ics := m, tacr := t })).2
        = some CiaEffect.IRQ ↔ m &&& 1 = 1) := by
  have hrun : ciaRun L { timer_a := L, timer_a_start := L, ics := m, tacr := t }
      = { timer_a := 0, timer_a_start := L, ics := m, tacr := t } := by
    have h := ciaRun_countdown { timer_a := L, timer_a_start := L, ics := m, tacr := t }
      hstart L (le_refl L)
    simpa using h
  have hstop8 : ¬ (t &&& 8 = 8) := by omega
  have htick : Cia1.tick { timer_a := 0, timer_a_start := L, ics := m, tacr := t }
      = ({ timer_a := L, timer_a_start := L, ics := m ||| 1, tacr := t },
         if m &&& 1 = 1 then some CiaEffect.IRQ else none) := by
    simp [Cia1.tick, Cia1.timer_a_underflow, hstart, hstop8]
  refine ⟨?_, ?_, ?_⟩
  · show (ciaRun (L + 1) _).ics &&& 1 = 1
    rw [ciaRun, hrun, htick]
    exact or_one_and_one m
  · show (ciaRun (L + 1) _).timer_a = L
    rw [ciaRun, hrun, htick]
  · rw [hrun, htick]
    by_cases hm : m &&& 1 = 1 <;> simp [hm]

/-- C3 witness: the law at L = 2, ics = 0x81, tacr = 0x01 (the spec's own
CIA scenario: latch 2, timer-A interrupt bit enabled, timer started). -/
theorem c3_cia_underflow_law_witness :
    (0 < 2 ∧ (0x01 : Nat) &&& 1 = 1 ∧ (0x01 : Nat) &&& 8 = 0)
    ∧ (((ciaRun 3 { timer_a := 2, timer_a_start := 2, ics := 0x81, tacr := 0x01 }).ics &&& 1 = 1)
       ∧ ((ciaRun 3 { timer_a := 2, timer_a_start := 2, ics := 0x81, tacr := 0x01 }).timer_a = 2)
       ∧ ((Cia1.tick (ciaRun 2 { timer_a := 2, timer_a_start := 2, ics := 0x81, tacr := 0x01 })).2
           = some CiaEffect.IRQ ↔ (0x81 : Nat) &&& 1 = 1)) :=
  ⟨⟨by decide, by decide, by decide⟩,
   c3_cia_underflow_law 2 0x81 0x01 (by decide) (by decide) (by decide)⟩


/-- C5's dispatch core: for every opcode byte outside the implemented table,
the dispatch of `Mos6510::run_instruction` returns the fatal decode error
whose message carries the opcode — and nothing but the opcode. -/
theorem dispatch_unimplemented (cpu : Mos6510) (mem : Mem) (op : Nat) (hlt : op < 256)
    (h : isImplemented op = false) :
    cpu.dispatch mem op = .error (.err ("UNKNOWN OPCODE: 0x" ++ hex2 op)) := by
  interval_cases op <;> first | rfl | exact absurd h (by decide)

/-- C5 (amended): for every machine state whose current opcode byte is not
in the implemented instruction table, `run_instruction` returns the fatal
decode error `Err("UNKNOWN OPCODE: 0x..")` carrying the offending opcode —
but not the PC — and executes nothing (the error is the entire result). -/
theorem c5_unknown_opcode_err (cpu : Mos6510) (mem : Mem)
    (h : isImplemented (mem.read cpu.state.program_counter) = false) :
    cpu.run_instruction mem =
      .error (.err ("UNKNOWN OPCODE: 0x" ++ hex2 (mem.read cpu.state.program_counter))) := by
  have hlt : mem.read cpu.state.program_counter < 256 := Nat.mod_lt _ (by decide)
  exact dispatch_unimplemented cpu mem _ hlt h

/-- C5 witness: the amended claim instantiated at PC = 0x1000 over a memory
filled with the unimplemented opcode 0x02. -/
theorem c5_unknown_opcode_err_witness :
    isImplemented (c5Mem.read (mkCpu 0x1000 0 0 0 0 sr0 0).state.program_counter) = false
    ∧ (mkCpu 0x1000 0 0 0 0 sr0 0).run_instruction c5Mem
        = .error (.err ("UNKNOWN OPCODE: 0x"
            ++ hex2 (c5Mem.read (mkCpu 0x1000 0 0 0 0 sr0 0).state.program_counter))) :=
  ⟨by decide, c5_unknown_opcode_err (mkCpu 0x1000 0 0 0 0 sr0 0) c5Mem (by decide)⟩

/-- C5 counterexample: the decode-error message does not carry the PC. Two
states that fetch the same unimplemented opcode 0x02 at different PCs
(0x1000 and 0x2000) produce the identical message "UNKNOWN OPCODE: 0x02",
so the message cannot carry the PC at which the opcode was fetched. -/
theorem c5_message_lacks_pc :
    (mkCpu 0x1000 0 0 0 0 sr0 0).run_instruction c5Mem
        = .error (.err "UNKNOWN OPCODE: 0x02")
    ∧ (mkCpu 0x2000 0 0 0 0 sr0 0).run_instruction c5Mem
        = .error (.err "UNKNOWN OPCODE: 0x02") := by
  constructor <;> rfl

/-- The closed form of the VIC raster counters started at `(x=0, line=0)`:
after `n` ticks, `x = 8 * (n % 63)` (63 ticks of 8 dots per 504-dot line)
and `line = n / 63 % 312`. -/
theorem vicRun_closed_form (n : Nat) :
    vicRun n (0, 0) = (8 * (n % 63), n / 63 % 312) := by
  induction n with
  | zero => rfl
  | succ k ih =>
      rw [vicRun, ih]
      unfold vicAdvance
      dsimp only
      split_ifs <;> simp_all [Prod.ext_iff] <;> omega

/-- C9: the VIC counter law — starting from `(x=0, line=0)`, after exactly
504 × 312 = 157248 ticks of `vicAdvance` the raster state is again exactly
`(x=0, line=0)` (each tick advances `x` by 8, so one full frame is 19656
ticks and 157248 is eight full frames). -/
theorem c9_vic_counter_law : vicRun 157248 (0, 0) = (0, 0) := by
  rw [vicRun_closed_form]

/-- C8 counterexample: the write/read round-trip law fails, as stated, at
the CIA interrupt-status address 0xDC0D. `main.rs` routes all of
0xD400–0xDFFF to the read-back `io` shadow and wires no CIA, so
`write(0xDC0D, 0x42); read(0xDC0D)` returns 0x42 — although 0xDC0D is the
spec's side-effect register and so outside the claim's allowed region. -/
theorem c8_roundtrip_counterexample :
    (mach0.write_mem 0xDC0D 0x42).read_mem 0xDC0D = 0x42
    ∧ claimRegionOk 0xDC0D = false := by
  constructor <;> rfl

/-- C8 (amended): for every bus state and every address outside the VIC
register window 0xD000–0xD3FF (whose read path is not among the provided
sources), `write(A, v); read(A)` returns `v` exactly outside the ROM
windows — including all of 0xD400–0xDFFF (color RAM, SID area and the CIA
block, which all read back) — while inside a ROM window the write is
ignored and the read returns the unchanged byte. -/
theorem c8_bus_write_read (m : Machine) (a v : Nat) (ha : a < 0x10000) (hv : v < 256)
    (hvic : ¬ (0xD000 ≤ a ∧ a < 0xD400)) :
    (m.write_mem a v).read_mem a =
      if isRomWindow a then m.read_mem a else v := by
  unfold Machine.write_mem Machine.read_mem isRomWindow Mem.read Mem.write
  split_ifs <;> simp_all <;> omega

/-- C8 witness: the amended round-trip law at the plain-RAM address 0x1234
with value 0x42 on the zero-initialized bus. -/
theorem c8_bus_write_read_witness :
    ((0x1234 : Nat) < 0x10000 ∧ (0x42 : Nat) < 256
      ∧ ¬ ((0xD000 : Nat) ≤ 0x1234 ∧ (0x1234 : Nat) < 0xD400))
    ∧ (mach0.write_mem 0x1234 0x42).read_mem 0x1234 =
        if isRomWindow 0x1234 then mach0.read_mem 0x1234 else 0x42 :=
  ⟨⟨by decide, by decide, by decide⟩,
   c8_bus_write_read mach0 0x1234 0x42 (by decide) (by decide) (by decide)⟩
